import Mathlib

/-!
Shallow embedding of the `gfuture` Go library: a future/promise implemented
as an unbuffered channel `Future[T] = chan payload[T]`, resolved by a single
`send` followed by `close`.

Two near-identical source variants exist: the timeout/poll variant
(`gfuture.go`: `Await`, `AwaitWithTimeout`, `Get`, `Then`) and the
context-cancellation variant (`Await(ctx)`, `Then(ctx, ...)`).  Both share
`NewFuture`, `Async`, `sendAndClose`, `Resolve`, `Value`, `Error`.

Modelling decisions, all derived from Go channel semantics as exercised by
this code:
* `T` is the Go result type; its Go zero value is passed explicitly as
  `zeroT` wherever the source materialises `var zero T` or omits a struct
  field.  Go `error` is `Option E` (`none` = `nil`).
* The channel is unbuffered and is only ever used by this code as:
  `f <- p; close(f)` (in `sendAndClose`), `<-f` (in the awaits, possibly
  inside a `select`).  Its reachable states are therefore:
  - `unresolved` : freshly made, open, no pending send;
  - `resolving p`: a resolver is blocked inside `f <- p`, waiting for a
    receiver to rendezvous (an unbuffered send blocks until received);
  - `closed p`   : the send rendezvoused (delivering `p` to exactly one
    receiver) and `close(f)` ran.
* A receive on `closed _` succeeds immediately with the *zero* payload
  (Go: receiving from a closed channel yields the element type's zero
  value), not with the payload that was sent.
* A send on `closed _` panics (Go: "send on closed channel").
* In a `select`, when exactly one branch is enabled that branch is taken;
  the model resolves the both-enabled race in favour of the receive branch,
  which is all the claims below exercise.
-/

namespace GFuture

/-- Embeds Go `payload[T] struct { val T; err error }`; `err = none` is
Go's `nil` error. -/
structure Payload (T E : Type) where
  val : T
  err : Option E
deriving Repr, DecidableEq

/-- Embeds Go `Optional[T] struct { Present bool; Value T; Err error }`
(the result type of `Get`). -/
structure Optional (T E : Type) where
  Present : Bool
  Value : T
  Err : Option E
deriving Repr, DecidableEq

/-- The reachable states of the unbuffered channel underlying a
`Future[T]`, as used by this library (one send ever, then close). -/
inductive FutureState (T E : Type) where
  | unresolved : FutureState T E
  | resolving (p : Payload T E) : FutureState T E
  | closed (p : Payload T E) : FutureState T E
deriving Repr, DecidableEq

/-- Embeds `NewFuture[T]() = make(chan payload[T])`: a fresh open channel
with no pending send. -/
def NewFuture (T E : Type) : FutureState T E := .unresolved

/-- Caller-visible outcome of attempting the send half of `sendAndClose`:
either the caller is suspended in `f <- p` (an unbuffered send blocks
until a receiver rendezvouses), recorded with the state the channel is
then in, or the Go runtime panics. -/
inductive SendStep (T E : Type) where
  | waits (s : FutureState T E) : SendStep T E
  | panics (msg : String) : SendStep T E
deriving Repr, DecidableEq

/-- Embeds `func (f Future[T]) sendAndClose(p payload[T]) { f <- p; close(f) }`.
On an open channel the send blocks the caller until a receiver arrives
(state becomes `resolving p`; the matching `close` runs at the rendezvous,
see `recvStep`).  When a send is already pending, a second sender also
blocks behind it; its payload can never be delivered, because the first
rendezvous closes the channel (making the blocked second send panic) — the
model keeps the first pending payload.  On a closed channel the send
panics immediately. -/
def sendAndClose (s : FutureState T E) (p : Payload T E) : SendStep T E :=
  match s with
  | .unresolved => .waits (.resolving p)
  | .resolving q => .waits (.resolving q)
  | .closed _ => .panics "send on closed channel"

/-- Embeds `Resolve(value, err) = sendAndClose(payload[T]{val: value, err: err})`. -/
def Resolve (s : FutureState T E) (value : T) (err : Option E) : SendStep T E :=
  sendAndClose s ⟨value, err⟩

/-- Embeds `Value(value) = sendAndClose(payload[T]{val: value})`; the
omitted `err` field is Go's zero value for `error`, i.e. `nil`. -/
def Value (s : FutureState T E) (value : T) : SendStep T E :=
  sendAndClose s ⟨value, none⟩

/-- Embeds `Error(err) = sendAndClose(payload[T]{err: err})`; the omitted
`val` field is the zero value of `T`, passed here as `zeroT`. -/
def Error (zeroT : T) (s : FutureState T E) (err : E) : SendStep T E :=
  sendAndClose s ⟨zeroT, some err⟩

/-- One receive `<-f` against the channel: `none` means the receive blocks
(open channel, no pending send).  A pending send rendezvouses — the
receiver obtains the sent payload and the sender's `close(f)` runs.  A
receive on a closed channel returns the zero payload immediately. -/
def recvStep (zeroT : T) (s : FutureState T E) : Option (FutureState T E × Payload T E) :=
  match s with
  | .unresolved => none
  | .resolving p => some (.closed p, p)
  | .closed p => some (.closed p, ⟨zeroT, none⟩)

/-- Embeds `Await() (T, error)` of the timeout variant:
`payload := <-f; return payload.val, payload.err`.  `none` = the caller
blocks. -/
def Await (zeroT : T) (s : FutureState T E) : Option (FutureState T E × (T × Option E)) :=
  (recvStep zeroT s).map (fun r => (r.1, (r.2.val, r.2.err)))

/-- Embeds `AwaitWithTimeout(t) (T, error, bool)`:
`select { case payload := <-f: return payload.val, payload.err, true;
case <-time.After(t): var zero T; return zero, nil, false }`.
`timerFired` says whether the `time.After(t)` branch is enabled (the
duration elapsed; always so at `t = 0`).  `none` = both branches
disabled, the caller blocks. -/
def AwaitWithTimeout (zeroT : T) (s : FutureState T E) (timerFired : Bool) :
    Option (FutureState T E × (T × Option E × Bool)) :=
  match recvStep zeroT s with
  | some (s2, p) => some (s2, (p.val, p.err, true))
  | none => if timerFired then some (s, (zeroT, none, false)) else none

/-- Embeds `Get() Optional[T]`: calls `AwaitWithTimeout(zeroDuration)` and
wraps the triple.  `time.After(0)` is already expired, so the timer branch
is enabled (`timerFired := true`). -/
def Get (zeroT : T) (s : FutureState T E) : Option (FutureState T E × Optional T E) :=
  match AwaitWithTimeout zeroT s true with
  | some (s2, (v, e, pres)) => some (s2, ⟨pres, v, e⟩)
  | none => none

/-- Embeds `Await(ctx) (T, error)` of the context variant:
`select { case payload := <-f: return payload.val, payload.err;
case <-ctx.Done(): var zero T; return zero, ctx.Err() }`.
`ctxDone` says whether the cancellation token has fired; `ctxErr` is the
token's own reason, the non-nil value `ctx.Err()` returns once `Done` is
closed (`context.Canceled` or `context.DeadlineExceeded`).  `none` = both
branches disabled, the caller blocks. -/
def AwaitCtx (zeroT : T) (s : FutureState T E) (ctxDone : Bool) (ctxErr : E) :
    Option (FutureState T E × (T × Option E)) :=
  match recvStep zeroT s with
  | some (s2, p) => some (s2, (p.val, p.err))
  | none => if ctxDone then some (s, (zeroT, some ctxErr)) else none

/-- Caller-side outcome of an operation: either control returns to the
caller at once (with the channel state as the caller leaves it) or the
caller is suspended. -/
inductive CallerReturn (T E : Type) where
  | returns (s : FutureState T E) : CallerReturn T E
  | suspended : CallerReturn T E
deriving Repr, DecidableEq

/-- Caller side of both variants of `Then`: a single `go` statement, which
never blocks; the caller gets control back at once, the channel untouched. -/
def Then_caller (s : FutureState T E) : CallerReturn T E := .returns s

/-- Caller side of `Async`: `make(chan ...)` then a `go` statement then
`return f` — none of these blocks; the caller receives the fresh,
still-unresolved future at once. -/
def Async_caller (T E : Type) : CallerReturn T E := .returns .unresolved

/-- Embeds `Async(provider)`: the pair of (the returned future's state at
the moment `Async` returns — unresolved, since only the spawned goroutine
resolves it) and (the payload the spawned `f.Resolve(provider())` will
send — the provider's return values, unchanged). -/
def Async (provider : Unit → T × Option E) : FutureState T E × Payload T E :=
  (.unresolved, ⟨(provider ()).1, (provider ()).2⟩)

/-- The consumer invocations performed by the goroutine that the timeout
variant `Then(consumer)` spawns (`go func() { consumer(f.Await()) }()`),
once its `Await` returns; `none` while the await still blocks. -/
def thenTask (zeroT : T) (s : FutureState T E) (consumer : T → Option E → A) :
    Option (List A) :=
  (Await zeroT s).map (fun r => [consumer r.2.1 r.2.2])

/-- The consumer invocations performed by the goroutine that the context
variant `Then(ctx, consumer)` spawns
(`go func() { consumer(f.Await(ctx)) }()`), once its `Await(ctx)` returns;
`none` while the await still blocks. -/
def thenCtxTask (zeroT : T) (s : FutureState T E) (ctxDone : Bool) (ctxErr : E)
    (consumer : T → Option E → A) : Option (List A) :=
  (AwaitCtx zeroT s ctxDone ctxErr).map (fun r => [consumer r.2.1 r.2.2])

end GFuture

open GFuture

/-! ## Claim theorems -/

/-- C1, as stated, is false: after `Value(1)` completes (the sent payload
`⟨1, none⟩` rendezvoused with one receiver and the channel closed), a
subsequent `Await` does NOT return `(1, noError)` — receiving from the
closed channel yields the zero payload, so it returns `(0, noError)`. -/
theorem c1_counterexample :
    Await (E := Unit) 0 (.closed ⟨1, none⟩) ≠ some (.closed ⟨1, none⟩, (1, none)) ∧
    Await (E := Unit) 0 (.closed ⟨1, none⟩) = some (.closed ⟨1, none⟩, (0, none)) := by
  constructor
  · decide
  · rfl

/-- C1 amended: `Value(v)` sends the payload `⟨v, none⟩` and blocks until a
receiver rendezvouses; the single awaiter that rendezvouses with the
resolution observes `(v, noError)`; every await performed after the channel
is closed returns `(zeroValue, noError)` — so all awaiters observe the same
outcome only when `v` is the zero value. -/
theorem c1_amended (T E : Type) (zeroT v : T) :
    Value (E := E) .unresolved v = .waits (.resolving ⟨v, none⟩) ∧
    Await zeroT (.resolving (⟨v, none⟩ : Payload T E)) =
      some (.closed ⟨v, none⟩, (v, none)) ∧
    Await zeroT (.closed (⟨v, none⟩ : Payload T E)) =
      some (.closed ⟨v, none⟩, (zeroT, none)) := by
  exact ⟨rfl, rfl, rfl⟩

/-- C2: resolving a future a second time after a completed first resolution
is a fatal fault (Go panic "send on closed channel") on the second call —
not silently ignored — and the first resolution is the only one whose
payload is ever delivered to an awaiter. -/
theorem c2_double_resolve_panics (T E : Type) (zeroT v : T) (e : Option E)
    (p : Payload T E) :
    Resolve (.closed p) v e = .panics "send on closed channel" ∧
    Await zeroT (.resolving p) = some (.closed p, (p.val, p.err)) := by
  exact ⟨rfl, rfl⟩

/-- C3, as stated, is false: `Resolve` on an unresolved future suspends the
caller in the unbuffered channel send until an awaiter rendezvouses, so
"resolve never blocks the calling thread" does not hold of the code. -/
theorem c3_counterexample :
    ¬ ∀ (s : FutureState Nat Unit) (v : Nat) (e : Option Unit)
        (s2 : FutureState Nat Unit), Resolve s v e ≠ .waits s2 := by
  intro h
  exact h .unresolved 7 none (.resolving ⟨7, none⟩) rfl

/-- C3 amended: `poll` (`Get`), `async` and `then` never block the caller,
and `await`/`awaitTimeout` block until resolution or timeout; but `resolve`
also blocks — on an unresolved future it suspends the caller in the channel
send until an awaiter rendezvouses (which is why the code only invokes it
from freshly spawned goroutines). -/
theorem c3_amended (T E : Type) (zeroT v : T) (e : Option E) :
    (∀ s : FutureState T E, (Get zeroT s).isSome = true) ∧
    (∀ s : FutureState T E, Then_caller s = .returns s) ∧
    Async_caller T E = .returns .unresolved ∧
    Resolve (E := E) .unresolved v e = .waits (.resolving ⟨v, e⟩) ∧
    Await (E := E) zeroT .unresolved = none := by
  refine ⟨?_, fun s => rfl, rfl, rfl, rfl⟩
  intro s
  cases s <;> rfl

/-- C4: if the cancellation token fires before the future resolves,
`Await(ctx)` returns `(zeroValue, ctx.Err())` — the token's own reason —
and leaves the future exactly as it was (still unresolved); a later await
on the same future, with an unfired token, still succeeds with the
eventual resolution. -/
theorem c4_cancellation (T E : Type) (zeroT : T) (ctxErr : E) (p : Payload T E) :
    AwaitCtx zeroT .unresolved true ctxErr = some (.unresolved, (zeroT, some ctxErr)) ∧
    AwaitCtx zeroT (.resolving p) false ctxErr = some (.closed p, (p.val, p.err)) := by
  exact ⟨rfl, rfl⟩

/-- C5: `Then(ctx, consumer)` returns to its caller immediately (a `go`
statement, channel untouched); the goroutine it spawns invokes `consumer`
exactly once with exactly the pair its `Await(ctx)` returns — the future's
outcome at the rendezvous, or `(zeroValue, ctx.Err())` if the token fires
first. -/
theorem c5_then (T E A : Type) (zeroT : T) (ctxErr : E) (p : Payload T E)
    (consumer : T → Option E → A) :
    (∀ s : FutureState T E, Then_caller s = .returns s) ∧
    (∀ (s : FutureState T E) (d : Bool),
      thenCtxTask zeroT s d ctxErr consumer =
        (AwaitCtx zeroT s d ctxErr).map (fun r => [consumer r.2.1 r.2.2])) ∧
    thenCtxTask zeroT (.resolving p) false ctxErr consumer =
      some [consumer p.val p.err] ∧
    thenCtxTask zeroT .unresolved true ctxErr consumer =
      some [consumer zeroT (some ctxErr)] := by
  exact ⟨fun s => rfl, fun s d => rfl, rfl, rfl⟩

/-- C6: `Async(provider)` returns its future still unresolved (the spawned
goroutine has not yet resolved it at return time); the provider's return
value and error are fed unchanged into `Resolve`, whose send then awaits a
receiver; the awaiter that rendezvouses with that resolution obtains
exactly the provider's return values. -/
theorem c6_async (T E : Type) (zeroT : T) (provider : Unit → T × Option E) :
    (Async provider).1 = .unresolved ∧
    (Async provider).2 = ⟨(provider ()).1, (provider ()).2⟩ ∧
    sendAndClose (Async provider).1 (Async provider).2 =
      .waits (.resolving (Async provider).2) ∧
    Await zeroT (.resolving (Async provider).2) =
      some (.closed (Async provider).2, ((provider ()).1, (provider ()).2)) := by
  exact ⟨rfl, rfl, rfl, rfl⟩

/-- C7: on an unresolved future, `AwaitWithTimeout(0)` takes the
already-expired timer branch and returns `(zeroValue, noError, false)`
immediately; `Get` (poll) is exactly `AwaitWithTimeout(0)` wrapped into
`Optional`, returning `Present := false` with no error on an unresolved
future, while a future resolved with the zero value polls as
`Present := true` — so absence is distinguishable from a resolved
zero-value outcome. -/
theorem c7_poll (T E : Type) (zeroT : T) :
    AwaitWithTimeout (E := E) zeroT .unresolved true = some (.unresolved, (zeroT, none, false)) ∧
    Get (E := E) zeroT .unresolved = some (.unresolved, ⟨false, zeroT, none⟩) ∧
    (∀ s : FutureState T E,
      Get zeroT s = (AwaitWithTimeout zeroT s true).map
        (fun r => (r.1, ⟨r.2.2.2, r.2.1, r.2.2.1⟩))) ∧
    Get (E := E) zeroT (.closed ⟨zeroT, none⟩) =
      some (.closed ⟨zeroT, none⟩, ⟨true, zeroT, none⟩) := by
  refine ⟨rfl, rfl, ?_, rfl⟩
  intro s
  cases s <;> rfl

/-- C8, as stated, is false: after `Error(e)` completes (payload
`⟨zero, some e⟩` delivered to one receiver, channel closed), a subsequent
`Await` does NOT return `(zeroValue, e)` — the closed channel yields the
zero payload, whose error field is `nil`. Concretely with `e = ()`. -/
theorem c8_counterexample :
    Await (E := Unit) 0 (.closed ⟨0, some ()⟩) ≠ some (.closed ⟨0, some ()⟩, (0, some ())) ∧
    Await (E := Unit) 0 (.closed ⟨0, some ()⟩) = some (.closed ⟨0, some ()⟩, (0, none)) := by
  constructor
  · decide
  · rfl

/-- C8 amended: `Error(e)` sends the payload `⟨zeroValue, e⟩`; the single
awaiter that rendezvouses with the resolution observes `(zeroValue, e)`;
every await performed after the channel is closed returns
`(zeroValue, noError)`. -/
theorem c8_amended (T E : Type) (zeroT : T) (e : E) :
    Error zeroT .unresolved e = .waits (.resolving ⟨zeroT, some e⟩) ∧
    Await zeroT (.resolving (⟨zeroT, some e⟩ : Payload T E)) =
      some (.closed ⟨zeroT, some e⟩, (zeroT, some e)) ∧
    Await zeroT (.closed (⟨zeroT, some e⟩ : Payload T E)) =
      some (.closed ⟨zeroT, some e⟩, (zeroT, none)) := by
  exact ⟨rfl, rfl, rfl⟩

/-- C9: on every future state, `Value(v)` performs exactly
`Resolve(v, noError)` and `Error(e)` performs exactly
`Resolve(zeroValue, e)` — identical payloads sent, hence identical effects
on the future and identical outcomes for awaiters. -/
theorem c9_sugar (T E : Type) (zeroT v : T) (e : E) (s : FutureState T E) :
    Value s v = Resolve s v none ∧
    Error zeroT s e = Resolve s zeroT (some e) := by
  exact ⟨rfl, rfl⟩

/-- C10: the two source variants agree on the resolution path: for a future
whose pending sent payload is `p`, the context-variant `Await` with an
unfired token, the timeout-variant `Await`, and the resolved branch of
`AwaitWithTimeout` all rendezvous with the send and return the identical
pair `(p.val, p.err)` (the timeout variant additionally flags `true`). -/
theorem c10_variants_agree (T E : Type) (zeroT : T) (ctxErr : E) (p : Payload T E) :
    AwaitCtx zeroT (.resolving p) false ctxErr = some (.closed p, (p.val, p.err)) ∧
    Await zeroT (.resolving p) = some (.closed p, (p.val, p.err)) ∧
    AwaitWithTimeout zeroT (.resolving p) false = some (.closed p, (p.val, p.err, true)) := by
  exact ⟨rfl, rfl, rfl⟩
